import Mathlib

/-!
Verification of the sessionization and two-tier feature aggregation pipeline
in `src/user_session.py` (class `AdvancedRetailAnalyticsPipeline`).

Shallow embedding conventions:
* A Spark `Row` of the cleaned event table is the structure `Event`; the
  `event_timestamp` column is kept as its unix time in whole seconds (the code
  only ever consumes timestamps through `unix_timestamp`, Spark's
  seconds-precision conversion, and through `hour`/`dayofweek`).
* A per-user partition of a DataFrame is a `List Event`; the window
  `Window.partitionBy("user_id").orderBy("event_timestamp")` becomes an
  insertion sort of the partition by timestamp followed by a linear scan.
* Spark aggregate semantics are modelled exactly: `avg` ignores NULL inputs
  and is NULL on an empty set of non-NULL inputs (`sparkAvg`), `countDistinct`
  ignores NULLs, `collect_set` collects the distinct values.
* Numeric results of `avg` and divisions are modelled in ℚ.
-/

/-- One cleaned event row (output of `_load_and_clean_data`): non-null
`user_id` and `event_timestamp`; `event_timestamp` is unix seconds. -/
structure Event where
  user_id : Int
  event_timestamp : Int
  event_type : String
  product_id : Option Int
  deriving DecidableEq, Repr

/-- The rows of the user `u` inside the full cleaned table `df`: the content
of the partition selected by `Window.partitionBy("user_id")`. -/
def userEvents (df : List Event) (u : Int) : List Event :=
  df.filter (fun e => e.user_id == u)

/-- The partition ordering `orderBy("event_timestamp")` on events. -/
def tsLE (a b : Event) : Prop := a.event_timestamp ≤ b.event_timestamp

instance : DecidableRel tsLE := fun _ _ => Int.decLe _ _

instance tsLE_total : IsTotal Event tsLE := ⟨fun _ _ => Int.le_total _ _⟩

instance tsLE_trans : IsTrans Event tsLE := ⟨fun _ _ _ h h2 => le_trans h h2⟩

/-- A user partition sorted ascending by `event_timestamp`. -/
def sortEventsByTs (l : List Event) : List Event := l.insertionSort tsLE

/-- Column `previous_timestamp`: `lag("event_timestamp", 1)` over the user
window — the previous row's value, NULL (`none`) for the partition's first
row.  `lagList prev l` pairs each element of `l` with its predecessor, the
first one with `prev`. -/
def lagList {α : Type} : Option α → List α → List (Option α)
  | _, [] => []
  | prev, t :: rest => prev :: lagList (some t) rest

/-- Column `new_session_flag`:
`when((time_diff > session_timeout) | time_diff.isNull, 1).otherwise(0)`. -/
def newSessionFlag (timeout : Int) (timeDiff : Option Int) : Nat :=
  match timeDiff with
  | none => 1
  | some d => if d > timeout then 1 else 0

/-- Column `session_group`: `sum("new_session_flag").over(user_window)`, the
running sum of the flags along the window order.  (Spark's default frame with
an `orderBy` is RANGE UNBOUNDED PRECEDING..CURRENT ROW; for a non-negative
timeout rows tied on `event_timestamp` all have flag 0 except possibly the
first row of the tied run, so the range frame agrees with the row-by-row
running sum computed here.) -/
def runningSum (acc : Nat) : List Nat → List Nat
  | [] => []
  | f :: rest => (acc + f) :: runningSum (acc + f) rest

/-- The `session_group` column of a user partition whose sorted timestamp
column is `ts`: lag, then `time_diff = unix_timestamp - unix_timestamp(prev)`,
then flag, then running sum. -/
def sessionGroupsOf (timeout : Int) (ts : List Int) : List Nat :=
  runningSum 0
    ((ts.zip (lagList none ts)).map
      (fun p => newSessionFlag timeout (p.2.map (fun q => p.1 - q))))

/-- Column `session_id = concat(user_id, "_", session_group)`. -/
def sessionIdStr (u : Int) (g : Nat) : String :=
  toString u ++ "_" ++ toString g

/-- `_sessionize_events`, restricted to the partition of one user, with the
event rows given as `l`: each event of the partition, in window order, paired
with its `session_group` (the session sequence number; the string
`session_id` is `sessionIdStr user_id group`). -/
def sessionizeUser (timeout : Int) (l : List Event) : List (Event × Nat) :=
  let sorted := sortEventsByTs l
  sorted.zip (sessionGroupsOf timeout (sorted.map (fun e => e.event_timestamp)))

/-- `_sessionize_events` of the full table `df`, viewed at user `u`. -/
def sessionizeEventsUser (timeout : Int) (df : List Event) (u : Int) :
    List (Event × Nat) :=
  sessionizeUser timeout (userEvents df u)

/-! ### A fused scan equivalent to lag + flag + running sum -/

/-- Fused linear scan computing `session_group` directly: carries the
previous timestamp and the running counter. -/
def scanGroups (timeout : Int) : Option Int → Nat → List Int → List Nat
  | _, _, [] => []
  | prev, g, t :: rest =>
    (g + newSessionFlag timeout (prev.map (fun p => t - p))) ::
      scanGroups timeout (some t)
        (g + newSessionFlag timeout (prev.map (fun p => t - p))) rest

/-! ### The session group as a function of the timestamp

On a sorted timestamp column the running sum assigns every row the value
`groupAt` of its own timestamp: rows tied on the timestamp share a group. -/

/-- The group value the scan assigns to the first row whose timestamp is
`tt`, starting from carried state `(prev, g)`. -/
def groupAtAux (timeout : Int) : Option Int → Nat → List Int → Int → Nat
  | _, g, [], _ => g
  | prev, g, t :: rest, tt =>
    if t = tt then g + newSessionFlag timeout (prev.map (fun p => t - p))
    else
      groupAtAux timeout (some t)
        (g + newSessionFlag timeout (prev.map (fun p => t - p))) rest tt

/-- The session group of the rows with timestamp `tt` in the sorted
timestamp column `ts`. -/
def groupAt (timeout : Int) (ts : List Int) (tt : Int) : Nat :=
  groupAtAux timeout none 0 ts tt

/-- The sorted `event_timestamp` column of a user partition. -/
def sortedTs (l : List Event) : List Int :=
  (sortEventsByTs l).map (fun e => e.event_timestamp)

/-! ### Session-level feature aggregation (`_aggregate_to_session_features`) -/

/-- Spark `avg` over a nullable column: NULL inputs are ignored; the result
is NULL when there is no non-NULL input, else the arithmetic mean. -/
def sparkAvg (l : List (Option ℚ)) : Option ℚ :=
  let vs := l.filterMap id
  if vs.length = 0 then none else some (vs.sum / (vs.length : ℚ))

/-- Modelled from the spec: the repository calls Spark's `dayofweek` builtin
(external to this repository's sources) on the session start; per its
documented semantics it returns the day of the week of the UTC date,
encoded Sunday = 1 .. Saturday = 7.  On unix seconds: 1970-01-01 (day 0)
was a Thursday, so day `d` since the epoch maps to `(d + 4) % 7 + 1`; the
`/` and `%` here are `Int.ediv`/`Int.emod` (floor division), matching the
calendar day also for pre-1970 instants. -/
def sparkDayofweek (t : Int) : Int :=
  (t / 86400 + 4) % 7 + 1

/-- Modelled from the spec: Spark's `hour` builtin (external to this
repository's sources) on the session start, in the session timezone (UTC
per the Spark config): the hour-of-day field, 0..23. -/
def sparkHour (t : Int) : Int :=
  (t % 86400) / 3600

/-- Minimum of a column (`min("event_timestamp")`); groups produced by a
`groupBy` are never empty, the `[]` case is out of reach. -/
def listMinI : List Int → Int
  | [] => 0
  | t :: r => r.foldl min t

/-- Maximum of a column (`max("event_timestamp")`). -/
def listMaxI : List Int → Int
  | [] => 0
  | t :: r => r.foldl max t

/-- One output row of `_aggregate_to_session_features`. -/
structure SessionRow where
  user_id : Int
  session_group : Nat
  session_id : String
  session_start_time : Int
  session_end_time : Int
  total_events : Nat
  distinct_products_viewed : Nat
  unique_event_types : List String
  session_duration_seconds : Int
  hour_of_day : Int
  day_of_week : Int
  funnel_stage : String
  deriving DecidableEq, Repr

/-- The aggregation of one `groupBy("user_id", "session_id")` group plus the
derived columns: `min`/`max` timestamps, `count("*")`,
`countDistinct("product_id")` (NULLs ignored), `collect_set("event_type")`,
duration, `hour`, `dayofweek`, and the `funnel_stage` `when`-chain
(first match wins: purchase, then cart, then view, then other). -/
def mkSessionRow (u : Int) (g : Nat) (evs : List Event) : SessionRow :=
  let ts := evs.map (fun e => e.event_timestamp)
  let types := (evs.map (fun e => e.event_type)).dedup
  { user_id := u
    session_group := g
    session_id := sessionIdStr u g
    session_start_time := listMinI ts
    session_end_time := listMaxI ts
    total_events := evs.length
    distinct_products_viewed := ((evs.filterMap (fun e => e.product_id)).dedup).length
    unique_event_types := types
    session_duration_seconds := listMaxI ts - listMinI ts
    hour_of_day := sparkHour (listMinI ts)
    day_of_week := sparkDayofweek (listMinI ts)
    funnel_stage :=
      if types.contains "purchase" then "completed_purchase"
      else if types.contains "cart" then "added_to_cart"
      else if types.contains "view" then "view_only"
      else "other" }

/-- The groups of `groupBy` over the session column of a sessionized user
partition: one entry per distinct `session_group` value, carrying the events
of that group.  (The code groups by the string `session_id =
concat(user_id, "_", session_group)`; within one user distinct groups give
distinct strings, so grouping by the numeric group is the same grouping.) -/
def sessionEventLists (out : List (Event × Nat)) : List (Nat × List Event) :=
  ((out.map Prod.snd).dedup).map
    (fun g => (g, (out.filter (fun p => p.2 == g)).map Prod.fst))

/-- `_aggregate_to_session_features` restricted to the user `u`: one
`SessionRow` per session of that user. -/
def aggregateToSessionFeatures (timeout : Int) (df : List Event) (u : Int) :
    List SessionRow :=
  (sessionEventLists (sessionizeEventsUser timeout df u)).map
    (fun gp => mkSessionRow u gp.1 gp.2)

/-! ### User-level aggregation (`_aggregate_to_user_features`) -/

/-- One output row of `_aggregate_to_user_features`. -/
structure UserSummary where
  user_id : Int
  total_sessions : Nat
  total_events_lifetime : Nat
  avg_session_duration_seconds : Option ℚ
  total_purchase_sessions : Nat
  avg_time_between_sessions_sec : Option ℚ
  avg_time_between_sessions_hours : Option ℚ
  deriving Repr

/-- The ordering `orderBy("session_start_time")` of the per-user window used
by `_aggregate_to_user_features`. -/
def rowLE (a b : SessionRow) : Prop :=
  a.session_start_time ≤ b.session_start_time

instance : DecidableRel rowLE := fun _ _ => Int.decLe _ _

instance rowLE_total : IsTotal SessionRow rowLE := ⟨fun _ _ => Int.le_total _ _⟩

instance rowLE_trans : IsTrans SessionRow rowLE := ⟨fun _ _ _ h h2 => le_trans h h2⟩

/-- A user's session rows sorted by `session_start_time`. -/
def sortRowsByStart (rows : List SessionRow) : List SessionRow :=
  rows.insertionSort rowLE

/-- `_aggregate_to_user_features` restricted to the group of one user, whose
`SessionFeatures` rows are `rows`: attach
`previous_session_start = lag("session_start_time", 1)` over the per-user
window, then aggregate with `count`, `sum`, `avg` (Spark `avg` ignores the
NULL lag of the first session), and divide the seconds average by 3600. -/
def aggregateToUserFeatures (u : Int) (rows : List SessionRow) : UserSummary :=
  let sorted := sortRowsByStart rows
  let withLag := sorted.zip (lagList none (sorted.map (fun r => r.session_start_time)))
  let gapSec := withLag.map
    (fun p => p.2.map (fun q => ((p.1.session_start_time - q : Int) : ℚ)))
  let avgSec := sparkAvg gapSec
  { user_id := u
    total_sessions := withLag.length
    total_events_lifetime := (withLag.map (fun p => p.1.total_events)).sum
    avg_session_duration_seconds :=
      sparkAvg (withLag.map (fun p => some ((p.1.session_duration_seconds : Int) : ℚ)))
    total_purchase_sessions :=
      (withLag.map
        (fun p => if p.1.funnel_stage = "completed_purchase" then 1 else 0)).sum
    avg_time_between_sessions_sec := avgSec
    avg_time_between_sessions_hours := avgSec.map (fun q => q / 3600) }

/-- The per-user row of the user summary table of the full pipeline. -/
def userSummaryOf (timeout : Int) (df : List Event) (u : Int) : UserSummary :=
  aggregateToUserFeatures u (aggregateToSessionFeatures timeout df u)

/-! ### Configuration handling (`run` / `_sessionize_events` line 67) -/

/-- The configuration mapping as far as the sessionization core reads it:
an association list for the YAML mapping, queried at key
`"session_timeout_seconds"`.  A missing key makes the Python subscript
`self.config["session_timeout_seconds"]` raise `KeyError`. -/
def getSessionTimeout (cfg : List (String × Int)) : Option Int :=
  (cfg.find? (fun p => p.1 == "session_timeout_seconds")).map (fun p => p.2)

/-- The pipeline stage sequence of `run` up to the point where results
exist, per user: reading the timeout inside `_sessionize_events` raises
(`Except.error`) on a missing key before any event is processed; otherwise
the pipeline proceeds with whatever value the configuration holds — the code
never validates positivity. -/
def runPipelineUser (cfg : List (String × Int)) (df : List Event) (u : Int) :
    Except String (List SessionRow × UserSummary) :=
  match getSessionTimeout cfg with
  | none => Except.error "KeyError: session_timeout_seconds"
  | some timeout =>
      Except.ok (aggregateToSessionFeatures timeout df u,
        userSummaryOf timeout df u)

/-- The successive start-to-previous-start differences of a list of session
start times (the defined gaps: the first session has none). -/
def consecGapsFrom (p : Int) : List Int → List Int
  | [] => []
  | t :: r => (t - p) :: consecGapsFrom t r

/-- The inter-session gaps of a sorted list of session start times: one gap
per session other than the first. -/
def consecGaps : List Int → List Int
  | [] => []
  | t :: r => consecGapsFrom t r

/-! ### General lemmas about the embedded operations -/
theorem runningSum_lag_eq_scanGroups (timeout : Int) :
    ∀ (ts : List Int) (prev : Option Int) (g : Nat),
      runningSum g
        ((ts.zip (lagList prev ts)).map
          (fun p => newSessionFlag timeout (p.2.map (fun q => p.1 - q)))) =
      scanGroups timeout prev g ts := by
  intro ts
  induction ts with
  | nil => intro prev g; rfl
  | cons t rest ih =>
    intro prev g
    simp only [lagList, List.zip_cons_cons, List.map_cons, runningSum,
      scanGroups]
    exact congrArg _ (ih (some t) _)

theorem sessionGroupsOf_eq_scanGroups (timeout : Int) (ts : List Int) :
    sessionGroupsOf timeout ts = scanGroups timeout none 0 ts := by
  unfold sessionGroupsOf
  exact runningSum_lag_eq_scanGroups timeout ts none 0

theorem length_scanGroups (timeout : Int) :
    ∀ (ts : List Int) (prev : Option Int) (g : Nat),
      (scanGroups timeout prev g ts).length = ts.length := by
  intro ts
  induction ts with
  | nil => intro prev g; rfl
  | cons t rest ih =>
    intro prev g
    simp only [scanGroups, List.length_cons]
    rw [ih]

theorem groupAtAux_head_eq (timeout : Int) (ht0 : 0 ≤ timeout)
    (t : Int) (g : Nat) (ts : List Int) (hsort : List.Sorted (· ≤ ·) ts)
    (hmem : t ∈ ts) (hle : ∀ x ∈ ts, t ≤ x) :
    groupAtAux timeout (some t) g ts t = g := by
  cases ts with
  | nil => cases hmem
  | cons x rest =>
    have hxt : x = t := by
      rcases List.mem_cons.mp hmem with h | h
      · exact h.symm
      · exact le_antisymm (List.rel_of_sorted_cons hsort t h)
          (hle x (List.mem_cons_self x rest))
    subst hxt
    have hng : ¬ (0 : Int) > timeout := by omega
    simp [groupAtAux, newSessionFlag, hng]

theorem scanGroups_get (timeout : Int) (ht0 : 0 ≤ timeout) :
    ∀ (ts : List Int) (prev : Option Int) (g : Nat),
      List.Sorted (· ≤ ·) ts →
      (∀ p, prev = some p → ∀ x ∈ ts, p ≤ x) →
      ∀ (i : Nat) (hi : i < ts.length)
        (hi2 : i < (scanGroups timeout prev g ts).length),
        (scanGroups timeout prev g ts).get ⟨i, hi2⟩ =
          groupAtAux timeout prev g ts (ts.get ⟨i, hi⟩) := by
  intro ts
  induction ts with
  | nil => intro prev g _ _ i hi _; cases hi
  | cons t rest ih =>
    intro prev g hsort hprev i hi hi2
    match i with
    | 0 =>
      show g + newSessionFlag timeout (prev.map (fun p => t - p)) =
        groupAtAux timeout prev g (t :: rest) ((t :: rest).get ⟨0, hi⟩)
      have h0 : (t :: rest).get ⟨0, hi⟩ = t := rfl
      rw [h0]
      simp [groupAtAux]
    | Nat.succ k =>
      have hk : k < rest.length := Nat.lt_of_succ_lt_succ hi
      have hk2 : k < (scanGroups timeout (some t)
          (g + newSessionFlag timeout (prev.map (fun p => t - p))) rest).length := by
        rw [length_scanGroups]; exact hk
      have hrec := ih (some t)
        (g + newSessionFlag timeout (prev.map (fun p => t - p)))
        hsort.of_cons
        (fun p hp x hx => by cases hp; exact List.rel_of_sorted_cons hsort x hx)
        k hk hk2
      simp only [scanGroups, List.get_cons_succ]
      rw [hrec]
      by_cases hteq : t = rest.get ⟨k, hk⟩
      · simp only [groupAtAux, if_pos hteq]
        rw [← hteq]
        exact groupAtAux_head_eq timeout ht0 t _ rest hsort.of_cons
          (hteq ▸ List.get_mem rest k hk)
          (List.rel_of_sorted_cons hsort)
      · simp only [groupAtAux, if_neg hteq]

theorem groupAtAux_le (timeout : Int) :
    ∀ (ts : List Int) (prev : Option Int) (g : Nat) (tt : Int),
      g ≤ groupAtAux timeout prev g ts tt := by
  intro ts
  induction ts with
  | nil => intro prev g tt; exact le_refl g
  | cons t rest ih =>
    intro prev g tt
    simp only [groupAtAux]
    by_cases hteq : t = tt
    · rw [if_pos hteq]; exact Nat.le_add_right g _
    · rw [if_neg hteq]
      exact le_trans (Nat.le_add_right g _) (ih (some t) _ tt)

theorem groupAtAux_mono (timeout : Int) :
    ∀ (ts : List Int) (prev : Option Int) (g : Nat) (t1 t2 : Int),
      List.Sorted (· ≤ ·) ts → t1 ∈ ts → t2 ∈ ts → t1 ≤ t2 →
      groupAtAux timeout prev g ts t1 ≤ groupAtAux timeout prev g ts t2 := by
  intro ts
  induction ts with
  | nil => intro prev g t1 t2 _ h1 _ _; cases h1
  | cons t rest ih =>
    intro prev g t1 t2 hsort h1 h2 hle
    by_cases ht1 : t = t1
    · simp only [groupAtAux, if_pos ht1]
      by_cases ht2 : t = t2
      · rw [if_pos ht2]
      · rw [if_neg ht2]
        exact groupAtAux_le timeout rest (some t) _ t2
    · have h1r : t1 ∈ rest := by
        rcases List.mem_cons.mp h1 with h | h
        · exact absurd h.symm ht1
        · exact h
      have ht2 : t ≠ t2 := by
        intro h
        subst h
        exact ht1 (le_antisymm (List.rel_of_sorted_cons hsort t1 h1r) hle)
      have h2r : t2 ∈ rest := by
        rcases List.mem_cons.mp h2 with h | h
        · exact absurd h.symm ht2
        · exact h
      simp only [groupAtAux, if_neg ht1, if_neg ht2]
      exact ih (some t) _ t1 t2 hsort.of_cons h1r h2r hle

theorem sortedTs_sorted (l : List Event) :
    List.Sorted (· ≤ ·) (sortedTs l) := by
  unfold sortedTs sortEventsByTs
  exact List.pairwise_map.mpr (List.sorted_insertionSort tsLE l)

theorem zip_eq_map_of_get {α β : Type} (f : α → β) :
    ∀ (l : List α) (G : List β), G.length = l.length →
      (∀ (i : Nat) (h1 : i < l.length) (h2 : i < G.length),
        G.get ⟨i, h2⟩ = f (l.get ⟨i, h1⟩)) →
      l.zip G = l.map (fun e => (e, f e)) := by
  intro l
  induction l with
  | nil => intro G _ _; simp
  | cons a l ih =>
    intro G hlen hget
    cases G with
    | nil => cases hlen
    | cons b G =>
      have hb : b = f a := hget 0 (Nat.succ_pos _) (Nat.succ_pos _)
      have htail := ih G (Nat.succ_injective hlen)
        (fun i h1 h2 => hget (i + 1) (Nat.succ_lt_succ h1) (Nat.succ_lt_succ h2))
      simp only [List.zip_cons_cons, List.map_cons, hb, htail]

/-- On a user partition, `_sessionize_events` pairs every event of the
sorted partition with the group `groupAt` of its own timestamp. -/
theorem sessionizeUser_eq_map (timeout : Int) (ht0 : 0 ≤ timeout)
    (l : List Event) :
    sessionizeUser timeout l =
      (sortEventsByTs l).map
        (fun e => (e, groupAt timeout (sortedTs l) e.event_timestamp)) := by
  show (sortEventsByTs l).zip (sessionGroupsOf timeout (sortedTs l)) = _
  rw [sessionGroupsOf_eq_scanGroups]
  apply zip_eq_map_of_get
  · rw [length_scanGroups]
    unfold sortedTs
    rw [List.length_map]
  · intro i h1 h2
    have hts_len : i < (sortedTs l).length := by
      unfold sortedTs; rw [List.length_map]; exact h1
    rw [scanGroups_get timeout ht0 (sortedTs l) none 0 (sortedTs_sorted l)
      (fun p hp => nomatch hp) i hts_len h2]
    unfold groupAt
    congr 1
    simp only [sortedTs, List.get_eq_getElem, List.getElem_map]

theorem sessionizeUser_snd_eq (timeout : Int) (ht0 : 0 ≤ timeout)
    (l : List Event) :
    ∀ p ∈ sessionizeUser timeout l,
      p.2 = groupAt timeout (sortedTs l) p.1.event_timestamp := by
  intro p hp
  rw [sessionizeUser_eq_map timeout ht0] at hp
  rcases List.mem_map.mp hp with ⟨e, _, he⟩
  rw [← he]

theorem sessionizeUser_fst_mem (timeout : Int) (ht0 : 0 ≤ timeout)
    (l : List Event) :
    ∀ p ∈ sessionizeUser timeout l, p.1.event_timestamp ∈ sortedTs l := by
  intro p hp
  rw [sessionizeUser_eq_map timeout ht0] at hp
  rcases List.mem_map.mp hp with ⟨e, hmem, he⟩
  rw [← he]
  exact List.mem_map.mpr ⟨e, hmem, rfl⟩

theorem sessionizeUser_map_fst (timeout : Int) (ht0 : 0 ≤ timeout)
    (l : List Event) :
    (sessionizeUser timeout l).map Prod.fst = sortEventsByTs l := by
  rw [sessionizeUser_eq_map timeout ht0, List.map_map]
  exact List.map_id _

theorem scanGroups_get_succ (timeout : Int) :
    ∀ (ts : List Int) (prev : Option Int) (g : Nat) (i : Nat)
      (hi : i + 1 < ts.length)
      (h1 : i < (scanGroups timeout prev g ts).length)
      (h2 : i + 1 < (scanGroups timeout prev g ts).length),
      (scanGroups timeout prev g ts).get ⟨i + 1, h2⟩ =
        (scanGroups timeout prev g ts).get ⟨i, h1⟩ +
          newSessionFlag timeout
            (some (ts.get ⟨i + 1, hi⟩ - ts.get ⟨i, Nat.lt_of_succ_lt hi⟩)) := by
  intro ts
  induction ts with
  | nil => intro prev g i hi _ _; cases hi
  | cons t rest ih =>
    intro prev g i hi h1 h2
    match i with
    | 0 =>
      cases rest with
      | nil => exact absurd hi (by simp)
      | cons r0 rest2 => rfl
    | Nat.succ k =>
      have hk : k + 1 < rest.length := Nat.lt_of_succ_lt_succ hi
      have hk1 : k < (scanGroups timeout (some t)
          (g + newSessionFlag timeout (prev.map (fun p => t - p))) rest).length := by
        rw [length_scanGroups]; exact Nat.lt_of_succ_lt hk
      have hk2 : k + 1 < (scanGroups timeout (some t)
          (g + newSessionFlag timeout (prev.map (fun p => t - p))) rest).length := by
        rw [length_scanGroups]; exact hk
      simp only [scanGroups, List.get_cons_succ]
      exact ih (some t) _ k hk hk1 hk2

theorem sessionizeUser_length (timeout : Int) (l : List Event) :
    (sessionizeUser timeout l).length = (sortEventsByTs l).length := by
  show ((sortEventsByTs l).zip (sessionGroupsOf timeout (sortedTs l))).length = _
  rw [List.length_zip, sessionGroupsOf_eq_scanGroups, length_scanGroups]
  unfold sortedTs
  rw [List.length_map, Nat.min_self]

theorem sessionizeUser_get (timeout : Int) (l : List Event) (i : Nat)
    (hi : i < (sessionizeUser timeout l).length)
    (hs : i < (sortEventsByTs l).length)
    (hg : i < (scanGroups timeout none 0 (sortedTs l)).length) :
    (sessionizeUser timeout l).get ⟨i, hi⟩ =
      ((sortEventsByTs l).get ⟨i, hs⟩,
        (scanGroups timeout none 0 (sortedTs l)).get ⟨i, hg⟩) := by
  have h1 : sessionizeUser timeout l =
      (sortEventsByTs l).zip (scanGroups timeout none 0 (sortedTs l)) := by
    show (sortEventsByTs l).zip (sessionGroupsOf timeout (sortedTs l)) = _
    rw [sessionGroupsOf_eq_scanGroups]
  simp only [List.get_eq_getElem, h1, List.getElem_zip]

theorem length_lagList {α : Type} :
    ∀ (l : List α) (prev : Option α), (lagList prev l).length = l.length := by
  intro l
  induction l with
  | nil => intro prev; rfl
  | cons t rest ih =>
    intro prev
    simp only [lagList, List.length_cons]
    rw [ih]

theorem zip_map_fst {α β γ : Type} (h : α → γ) :
    ∀ (l : List α) (G : List β), G.length = l.length →
      (l.zip G).map (fun p => h p.1) = l.map h := by
  intro l
  induction l with
  | nil => intro G _; simp
  | cons a l ih =>
    intro G hlen
    cases G with
    | nil => cases hlen
    | cons b G =>
      simp only [List.zip_cons_cons, List.map_cons, List.cons.injEq, true_and]
      exact ih G (Nat.succ_injective hlen)

theorem length_consecGapsFrom :
    ∀ (ts : List Int) (p : Int), (consecGapsFrom p ts).length = ts.length := by
  intro ts
  induction ts with
  | nil => intro p; rfl
  | cons t rest ih =>
    intro p
    simp only [consecGapsFrom, List.length_cons]
    rw [ih]

theorem length_consecGaps (ts : List Int) :
    (consecGaps ts).length = ts.length - 1 := by
  cases ts with
  | nil => rfl
  | cons t rest =>
    simp only [consecGaps, List.length_cons, Nat.add_sub_cancel]
    exact length_consecGapsFrom rest t

theorem filterMap_id_cons_some {β : Type} (x : β) (t : List (Option β)) :
    (some x :: t).filterMap id = x :: t.filterMap id := rfl

theorem filterMap_id_cons_none {β : Type} (t : List (Option β)) :
    ((none : Option β) :: t).filterMap id = t.filterMap id := rfl

theorem gapSec_filterMap :
    ∀ (l : List SessionRow) (p : Int),
      ((l.zip (lagList (some p) (l.map (fun r => r.session_start_time)))).map
          (fun q => q.2.map (fun z => ((q.1.session_start_time - z : Int) : ℚ)))).filterMap id =
        (consecGapsFrom p (l.map (fun r => r.session_start_time))).map
          (fun z => ((z : Int) : ℚ)) := by
  intro l
  induction l with
  | nil => intro p; rfl
  | cons a r ih =>
    intro p
    simp only [List.map_cons, lagList, List.zip_cons_cons, Option.map_some',
      consecGapsFrom]
    rw [filterMap_id_cons_some]
    simp only [List.cons.injEq, true_and]
    exact ih (a.session_start_time)

theorem gapSec_filterMap_none (l : List SessionRow) :
    ((l.zip (lagList none (l.map (fun r => r.session_start_time)))).map
        (fun q => q.2.map (fun z => ((q.1.session_start_time - z : Int) : ℚ)))).filterMap id =
      (consecGaps (l.map (fun r => r.session_start_time))).map
        (fun z => ((z : Int) : ℚ)) := by
  cases l with
  | nil => rfl
  | cons a r =>
    simp only [List.map_cons, lagList, List.zip_cons_cons, Option.map_none',
      consecGaps]
    rw [filterMap_id_cons_none]
    exact gapSec_filterMap r a.session_start_time

theorem length_le_sum_of_one_le :
    ∀ l : List Nat, (∀ x ∈ l, 1 ≤ x) → l.length ≤ l.sum := by
  intro l
  induction l with
  | nil => intro _; exact Nat.le_refl 0
  | cons a r ih =>
    intro h
    simp only [List.length_cons, List.sum_cons]
    have ha := h a (List.mem_cons_self a r)
    have hr := ih (fun x hx => h x (List.mem_cons_of_mem a hx))
    omega

theorem sum_sessionEventLists_lengths (out : List (Event × Nat)) :
    ((sessionEventLists out).map (fun gp => gp.2.length)).sum = out.length := by
  unfold sessionEventLists
  rw [List.map_map]
  have hpt : ∀ g ∈ (out.map Prod.snd).dedup,
      ((fun gp : Nat × List Event => gp.2.length) ∘
        (fun g => (g, (out.filter (fun p => p.2 == g)).map Prod.fst))) g =
      (out.map Prod.snd).count g := by
    intro g _
    simp only [Function.comp_apply, List.length_map,
      ← List.countP_eq_length_filter, List.count_eq_countP, List.countP_map]
    rfl
  rw [List.map_congr_left hpt, List.sum_map_count_dedup_eq_length,
    List.length_map]

theorem sessionEventLists_groups_nonempty (out : List (Event × Nat)) :
    ∀ gp ∈ sessionEventLists out, 1 ≤ gp.2.length := by
  intro gp hgp
  unfold sessionEventLists at hgp
  rcases List.mem_map.mp hgp with ⟨g, hg, hEq⟩
  rcases List.mem_map.mp (List.mem_dedup.mp hg) with ⟨p, hp, hpg⟩
  have hpf : p ∈ out.filter (fun q => q.2 == g) :=
    List.mem_filter.mpr ⟨hp, by simp [hpg]⟩
  have : p.1 ∈ gp.2 := by
    rw [← hEq]
    exact List.mem_map.mpr ⟨p, hpf, rfl⟩
  have hlen := List.length_pos.mpr (List.ne_nil_of_mem this)
  omega

/-! ### Claim C2 -/

/-- Claim C2 counterexample: on a one-event table, the unique (hence
chronologically first) event of user 7 receives session sequence number 1 —
`sum("new_session_flag")` over the window includes the first row's own flag —
so its session id is `"7_1"`, not session 0. -/
theorem C2_counterexample :
    (sessionizeEventsUser 1800
        [{ user_id := 7, event_timestamp := 0, event_type := "view",
           product_id := none }] 7).map Prod.snd = [1] ∧
      sessionIdStr 7 1 = "7_1" ∧ (1 : Nat) ≠ 0 := by
  exact ⟨by decide, rfl, by decide⟩

/-- Claim C2 (amended): the chronologically first event of a user — the only
row whose lagged `time_diff` is NULL — always starts a new session, but
session sequence numbers start at 1, not 0: the first event of every user
carries session sequence number 1 (session id `user_1`). -/
theorem C2_first_event_starts_session_one (timeout : Int) (df : List Event)
    (u : Int) (p : Event × Nat)
    (hp : (sessionizeEventsUser timeout df u)[0]? = some p) :
    p.2 = 1 := by
  rcases List.getElem?_eq_some_iff.mp hp with ⟨hlen, hval⟩
  unfold sessionizeEventsUser at *
  have hs : 0 < (sortEventsByTs (userEvents df u)).length := by
    rw [← sessionizeUser_length timeout (userEvents df u)]; exact hlen
  have hg : 0 < (scanGroups timeout none 0 (sortedTs (userEvents df u))).length := by
    rw [length_scanGroups]
    show 0 < (sortedTs (userEvents df u)).length
    unfold sortedTs; rw [List.length_map]; exact hs
  have hget := sessionizeUser_get timeout (userEvents df u) 0 hlen hs hg
  rw [List.get_eq_getElem] at hget
  rw [hval] at hget
  rw [hget]
  show (scanGroups timeout none 0 (sortedTs (userEvents df u))).get ⟨0, hg⟩ = 1
  have hhead : ∀ (ts : List Int) (h : 0 < (scanGroups timeout none 0 ts).length),
      (scanGroups timeout none 0 ts).get ⟨0, h⟩ = 1 := by
    intro ts h
    cases ts with
    | nil => cases h
    | cons t0 tr => rfl
  exact hhead _ hg

/-- Witness for C2 (amended) at a concrete two-event table. -/
theorem C2_witness :
    (sessionizeEventsUser 1800
        [{ user_id := 7, event_timestamp := 0, event_type := "view",
           product_id := none },
         { user_id := 7, event_timestamp := 30, event_type := "cart",
           product_id := none }] 7)[0]? =
      some ({ user_id := 7, event_timestamp := 0, event_type := "view",
              product_id := none }, 1) ∧
    (({ user_id := 7, event_timestamp := 0, event_type := "view",
        product_id := none } : Event), 1).2 = 1 :=
  ⟨by decide,
   C2_first_event_starts_session_one 1800
     [{ user_id := 7, event_timestamp := 0, event_type := "view",
        product_id := none },
      { user_id := 7, event_timestamp := 30, event_type := "cart",
        product_id := none }] 7
     ({ user_id := 7, event_timestamp := 0, event_type := "view",
        product_id := none }, 1) (by decide)⟩

/-! ### Claim C4 -/

/-- Claim C4: a user with exactly one SessionFeatures row gets a NULL
(`none`) `avg_time_between_sessions_hours`: the single row's lagged previous
start is NULL, Spark's `avg` over no non-NULL input is NULL, and NULL/3600
stays NULL — not zero, and not an error (the aggregation is total). -/
theorem C4_single_session_null_avg (u : Int) (rows : List SessionRow)
    (h1 : rows.length = 1) :
    (aggregateToUserFeatures u rows).avg_time_between_sessions_hours = none ∧
    (aggregateToUserFeatures u rows).avg_time_between_sessions_sec = none := by
  rcases List.length_eq_one.mp h1 with ⟨r, rfl⟩
  exact ⟨rfl, rfl⟩

/-- Witness for C4 on a concrete single-session user. -/
theorem C4_witness :
    [mkSessionRow 7 1
        [{ user_id := 7, event_timestamp := 0, event_type := "view",
           product_id := none }]].length = 1 ∧
    (aggregateToUserFeatures 7
        [mkSessionRow 7 1
          [{ user_id := 7, event_timestamp := 0, event_type := "view",
             product_id := none }]]).avg_time_between_sessions_hours = none :=
  ⟨rfl,
   (C4_single_session_null_avg 7
     [mkSessionRow 7 1
       [{ user_id := 7, event_timestamp := 0, event_type := "view",
          product_id := none }]] rfl).1⟩

/-! ### Claim C5 -/

/-- Claim C5 counterexample: with `session_timeout_seconds = 0` — a
non-positive value — the pipeline raises nothing: the run proceeds and
produces both output tables, because `_sessionize_events` uses the
configured value without any validation. -/
theorem C5_counterexample :
    getSessionTimeout [("session_timeout_seconds", 0)] = some 0 ∧
    runPipelineUser [("session_timeout_seconds", 0)]
        [{ user_id := 7, event_timestamp := 0, event_type := "view",
           product_id := none }] 7 =
      Except.ok
        (aggregateToSessionFeatures 0
          [{ user_id := 7, event_timestamp := 0, event_type := "view",
             product_id := none }] 7,
         userSummaryOf 0
          [{ user_id := 7, event_timestamp := 0, event_type := "view",
             product_id := none }] 7) := by
  exact ⟨rfl, rfl⟩

/-- Claim C5 (amended): a missing `session_timeout_seconds` key is a fatal
error raised when `_sessionize_events` reads the configuration, before any
event is processed, and the failed run produces no partial output; a present
but non-positive value, however, is not validated — the run proceeds
normally using that value as the threshold. -/
theorem C5_missing_key_fatal (cfg : List (String × Int)) (df : List Event)
    (u : Int) :
    (getSessionTimeout cfg = none →
      runPipelineUser cfg df u =
        Except.error "KeyError: session_timeout_seconds") ∧
    (∀ t, getSessionTimeout cfg = some t →
      runPipelineUser cfg df u =
        Except.ok (aggregateToSessionFeatures t df u, userSummaryOf t df u)) := by
  constructor
  · intro h; unfold runPipelineUser; rw [h]
  · intro t h; unfold runPipelineUser; rw [h]

/-- Witness for C5 (amended): a configuration without the key errors out; a
configuration with a negative value is accepted. -/
theorem C5_witness :
    runPipelineUser [] [] 0 =
      Except.error "KeyError: session_timeout_seconds" ∧
    runPipelineUser [("session_timeout_seconds", -5)] [] 0 =
      Except.ok (aggregateToSessionFeatures (-5) [] 0,
        userSummaryOf (-5) [] 0) :=
  ⟨(C5_missing_key_fatal [] [] 0).1 rfl,
   (C5_missing_key_fatal [("session_timeout_seconds", -5)] [] 0).2 (-5) rfl⟩

/-! ### Claim C6 -/

/-- Claim C6: `funnel_stage` is decided by a strict first-match priority over
the session's set of distinct event types — containing `purchase` gives
`completed_purchase`; else containing `cart` gives `added_to_cart`; else
containing `view` gives `view_only`; else `other` — and the four concrete
type sets {view, cart, purchase}, {cart, view}, {view}, and an unmatched
type map to the four respective stages. -/
theorem C6_funnel_priority :
    (∀ (u : Int) (g : Nat) (evs : List Event),
      (mkSessionRow u g evs).funnel_stage =
        if "purchase" ∈ evs.map (fun e => e.event_type) then "completed_purchase"
        else if "cart" ∈ evs.map (fun e => e.event_type) then "added_to_cart"
        else if "view" ∈ evs.map (fun e => e.event_type) then "view_only"
        else "other") ∧
    (mkSessionRow 1 1
      [{ user_id := 1, event_timestamp := 0, event_type := "view", product_id := none },
       { user_id := 1, event_timestamp := 1, event_type := "cart", product_id := none },
       { user_id := 1, event_timestamp := 2, event_type := "purchase", product_id := none }]).funnel_stage
      = "completed_purchase" ∧
    (mkSessionRow 1 1
      [{ user_id := 1, event_timestamp := 0, event_type := "cart", product_id := none },
       { user_id := 1, event_timestamp := 1, event_type := "view", product_id := none }]).funnel_stage
      = "added_to_cart" ∧
    (mkSessionRow 1 1
      [{ user_id := 1, event_timestamp := 0, event_type := "view", product_id := none }]).funnel_stage
      = "view_only" ∧
    (mkSessionRow 1 1
      [{ user_id := 1, event_timestamp := 0, event_type := "remove_from_cart", product_id := none }]).funnel_stage
      = "other" := by
  refine ⟨?_, by decide, by decide, by decide, by decide⟩
  intro u g evs
  simp only [mkSessionRow, List.contains, List.elem_eq_mem, List.mem_dedup,
    decide_eq_true_eq]

/-! ### Claim C10 -/

/-- Claim C10: the `day_of_week` column of every session row is Spark's
`dayofweek` applied to `session_start_time`: an integer in 1..7 under the
Sunday = 1 .. Saturday = 7 convention (epoch day 1970-01-01, a Thursday,
gives 5; 1970-01-04, a Sunday, gives 1; 1970-01-03, a Saturday, gives 7) —
not a symbolic day name. -/
theorem C10_day_of_week (timeout : Int) (df : List Event) (u : Int) :
    (∀ row ∈ aggregateToSessionFeatures timeout df u,
      row.day_of_week = sparkDayofweek row.session_start_time ∧
      1 ≤ row.day_of_week ∧ row.day_of_week ≤ 7) ∧
    sparkDayofweek 0 = 5 ∧ sparkDayofweek 259200 = 1 ∧
    sparkDayofweek 172800 = 7 := by
  refine ⟨?_, by decide, by decide, by decide⟩
  intro row hrow
  rcases List.mem_map.mp hrow with ⟨gp, _, rfl⟩
  refine ⟨rfl, ?_, ?_⟩ <;>
  · simp only [mkSessionRow, sparkDayofweek]
    omega

/-- Witness for C10 at a concrete one-session table. -/
theorem C10_witness :
    mkSessionRow 7 1
        [{ user_id := 7, event_timestamp := 0, event_type := "view",
           product_id := none }] ∈
      aggregateToSessionFeatures 1800
        [{ user_id := 7, event_timestamp := 0, event_type := "view",
           product_id := none }] 7 ∧
    ((mkSessionRow 7 1
        [{ user_id := 7, event_timestamp := 0, event_type := "view",
           product_id := none }]).day_of_week =
      sparkDayofweek
        (mkSessionRow 7 1
          [{ user_id := 7, event_timestamp := 0, event_type := "view",
             product_id := none }]).session_start_time ∧
      1 ≤ (mkSessionRow 7 1
        [{ user_id := 7, event_timestamp := 0, event_type := "view",
           product_id := none }]).day_of_week ∧
      (mkSessionRow 7 1
        [{ user_id := 7, event_timestamp := 0, event_type := "view",
           product_id := none }]).day_of_week ≤ 7) :=
  ⟨by decide,
   (C10_day_of_week 1800
     [{ user_id := 7, event_timestamp := 0, event_type := "view",
        product_id := none }] 7).1
     (mkSessionRow 7 1
       [{ user_id := 7, event_timestamp := 0, event_type := "view",
          product_id := none }]) (by decide)⟩

/-! ### Claim C1 -/

/-- Claim C1: for every user and every positive session timeout, two
chronologically consecutive events of that user in the output of
`_sessionize_events` carry the same session number iff the difference of
their timestamps in seconds is at most `session_timeout_seconds`; whenever
the gap is strictly greater, the later event starts a new session (its
session number is the predecessor's plus one). -/
theorem C1_gap_rule (timeout : Int) (df : List Event) (u : Int)
    (ht : 0 < timeout) (i : Nat) (p q : Event × Nat)
    (hp : (sessionizeEventsUser timeout df u)[i]? = some p)
    (hq : (sessionizeEventsUser timeout df u)[i + 1]? = some q) :
    (p.2 = q.2 ↔ q.1.event_timestamp - p.1.event_timestamp ≤ timeout) ∧
    (timeout < q.1.event_timestamp - p.1.event_timestamp → q.2 = p.2 + 1) := by
  rcases List.getElem?_eq_some_iff.mp hp with ⟨hip, hvp⟩
  rcases List.getElem?_eq_some_iff.mp hq with ⟨hiq, hvq⟩
  unfold sessionizeEventsUser at *
  have hsq : i + 1 < (sortEventsByTs (userEvents df u)).length := by
    rw [← sessionizeUser_length timeout (userEvents df u)]; exact hiq
  have hsp : i < (sortEventsByTs (userEvents df u)).length :=
    Nat.lt_of_succ_lt hsq
  have htsq : i + 1 < (sortedTs (userEvents df u)).length := by
    unfold sortedTs; rw [List.length_map]; exact hsq
  have hgq : i + 1 <
      (scanGroups timeout none 0 (sortedTs (userEvents df u))).length := by
    rw [length_scanGroups]; exact htsq
  have hgp : i <
      (scanGroups timeout none 0 (sortedTs (userEvents df u))).length :=
    Nat.lt_of_succ_lt hgq
  have hip2 : i < (sessionizeUser timeout (userEvents df u)).length :=
    Nat.lt_of_succ_lt hiq
  have hgetp := sessionizeUser_get timeout (userEvents df u) i hip2 hsp hgp
  have hgetq := sessionizeUser_get timeout (userEvents df u) (i + 1) hiq hsq hgq
  rw [List.get_eq_getElem] at hgetp hgetq
  rw [hvp] at hgetp
  rw [hvq] at hgetq
  have htg : ∀ (j : Nat) (hj : j < (sortedTs (userEvents df u)).length)
      (hj2 : j < (sortEventsByTs (userEvents df u)).length),
      (sortedTs (userEvents df u)).get ⟨j, hj⟩ =
        ((sortEventsByTs (userEvents df u)).get ⟨j, hj2⟩).event_timestamp := by
    intro j hj hj2
    simp only [sortedTs, List.get_eq_getElem, List.getElem_map]
  have hadj := scanGroups_get_succ timeout (sortedTs (userEvents df u))
    none 0 i htsq hgp hgq
  rw [htg (i + 1) htsq hsq, htg i (Nat.lt_of_succ_lt htsq) hsp] at hadj
  rw [hgetp, hgetq]
  dsimp only
  rw [hadj]
  by_cases hd : ((sortEventsByTs (userEvents df u)).get ⟨i + 1, hsq⟩).event_timestamp -
      ((sortEventsByTs (userEvents df u)).get ⟨i, hsp⟩).event_timestamp > timeout
  · simp only [newSessionFlag, if_pos hd]
    constructor
    · constructor
      · intro h; omega
      · intro h; omega
    · intro _; trivial
  · simp only [newSessionFlag, if_neg hd]
    constructor
    · constructor
      · intro _; omega
      · intro _; trivial
    · intro h; omega

/-- Witness for C1 on a three-event table with timeout 1800: events at 0 and
30 seconds share a session. -/
theorem C1_witness :
    ((({ user_id := 1, event_timestamp := 0, event_type := "view",
         product_id := none } : Event), (1 : Nat)).2 =
        (({ user_id := 1, event_timestamp := 30, event_type := "view",
            product_id := none } : Event), (1 : Nat)).2 ↔
      ({ user_id := 1, event_timestamp := 30, event_type := "view",
         product_id := none } : Event).event_timestamp -
        ({ user_id := 1, event_timestamp := 0, event_type := "view",
           product_id := none } : Event).event_timestamp ≤ 1800) ∧
    (1800 < ({ user_id := 1, event_timestamp := 30, event_type := "view",
                product_id := none } : Event).event_timestamp -
        ({ user_id := 1, event_timestamp := 0, event_type := "view",
           product_id := none } : Event).event_timestamp →
      (({ user_id := 1, event_timestamp := 30, event_type := "view",
          product_id := none } : Event), (1 : Nat)).2 =
        (({ user_id := 1, event_timestamp := 0, event_type := "view",
            product_id := none } : Event), (1 : Nat)).2 + 1) :=
  C1_gap_rule 1800
    [{ user_id := 1, event_timestamp := 0, event_type := "view",
       product_id := none },
     { user_id := 1, event_timestamp := 30, event_type := "view",
       product_id := none },
     { user_id := 1, event_timestamp := 7200, event_type := "view",
       product_id := none }] 1 (by decide) 0
    ({ user_id := 1, event_timestamp := 0, event_type := "view",
       product_id := none }, 1)
    ({ user_id := 1, event_timestamp := 30, event_type := "view",
       product_id := none }, 1) (by decide) (by decide)

/-! ### Claim C3 -/

/-- Claim C3: for every user with at least two sessions,
`avg_time_between_sessions_hours` is the arithmetic mean — over the sessions
ordered by `session_start_time`, the first session excluded — of
`session_start_time` minus the previous session's `session_start_time` in
seconds, divided by 3600: Spark's `avg` silently drops the first session's
NULL lag, which yields exactly the spec's mean over the defined gaps. -/
theorem C3_avg_gap_hours (u : Int) (rows : List SessionRow)
    (h2 : 2 ≤ rows.length) :
    (aggregateToUserFeatures u rows).avg_time_between_sessions_hours =
      some ((((consecGaps ((sortRowsByStart rows).map
            (fun r => r.session_start_time))).map
              (fun z => ((z : Int) : ℚ))).sum /
          (((consecGaps ((sortRowsByStart rows).map
            (fun r => r.session_start_time))).length : ℚ))) / 3600) := by
  have hsortlen : (sortRowsByStart rows).length = rows.length :=
    (List.perm_insertionSort rowLE rows).length_eq
  have hlen : ¬ ((consecGaps ((sortRowsByStart rows).map
      (fun r => r.session_start_time))).length = 0) := by
    rw [length_consecGaps, List.length_map, hsortlen]
    omega
  unfold aggregateToUserFeatures
  dsimp only
  unfold sparkAvg
  dsimp only
  rw [gapSec_filterMap_none (sortRowsByStart rows), List.length_map,
    if_neg hlen, Option.map_some']

/-- Witness for C3: a user with two one-event sessions whose start times are
0 and 7170 seconds gets `avg_time_between_sessions_hours = 7170/3600`. -/
theorem C3_witness :
    2 ≤ [mkSessionRow 7 1
          [{ user_id := 7, event_timestamp := 0, event_type := "view",
             product_id := none }],
         mkSessionRow 7 2
          [{ user_id := 7, event_timestamp := 7170, event_type := "view",
             product_id := none }]].length ∧
    (aggregateToUserFeatures 7
        [mkSessionRow 7 1
          [{ user_id := 7, event_timestamp := 0, event_type := "view",
             product_id := none }],
         mkSessionRow 7 2
          [{ user_id := 7, event_timestamp := 7170, event_type := "view",
             product_id := none }]]).avg_time_between_sessions_hours =
      some (7170 / 3600) :=
  ⟨by decide,
   (C3_avg_gap_hours 7
      [mkSessionRow 7 1
        [{ user_id := 7, event_timestamp := 0, event_type := "view",
           product_id := none }],
       mkSessionRow 7 2
        [{ user_id := 7, event_timestamp := 7170, event_type := "view",
           product_id := none }]] (by decide)).trans (by
    rw [show consecGaps
        ((sortRowsByStart
          [mkSessionRow 7 1
            [{ user_id := 7, event_timestamp := 0, event_type := "view",
               product_id := none }],
           mkSessionRow 7 2
            [{ user_id := 7, event_timestamp := 7170, event_type := "view",
               product_id := none }]]).map
          (fun r => r.session_start_time)) = [7170] from rfl]
    simp only [List.map_cons, List.map_nil, List.sum_cons, List.sum_nil,
      List.length_cons, List.length_nil, Option.some.injEq]
    norm_num)⟩

/-! ### Claim C7 -/

/-- Claim C7: for every user (positive timeout), the sessions produced by
`_sessionize_events` partition the user's events: the output carries exactly
the user's events, each paired with exactly one session number (first
conjunct, a multiset equality); no event value is assigned two different
sessions (second conjunct); and sessions are contiguous in time — an event
whose timestamp lies between the timestamps of two events of one session
belongs to that session (third conjunct, which applied to a session's
earliest and latest events says no event between a session's start and end
is in a different session). -/
theorem C7_partition (timeout : Int) (df : List Event) (u : Int)
    (ht : 0 < timeout) :
    ((sessionizeEventsUser timeout df u).map Prod.fst).Perm (userEvents df u) ∧
    (∀ p ∈ sessionizeEventsUser timeout df u,
      ∀ q ∈ sessionizeEventsUser timeout df u, p.1 = q.1 → p.2 = q.2) ∧
    (∀ p ∈ sessionizeEventsUser timeout df u,
      ∀ q ∈ sessionizeEventsUser timeout df u,
      ∀ r ∈ sessionizeEventsUser timeout df u,
      p.2 = q.2 →
      p.1.event_timestamp ≤ r.1.event_timestamp →
      r.1.event_timestamp ≤ q.1.event_timestamp → r.2 = p.2) := by
  have ht0 : (0 : Int) ≤ timeout := le_of_lt ht
  unfold sessionizeEventsUser
  refine ⟨?_, ?_, ?_⟩
  · rw [sessionizeUser_map_fst timeout ht0 (userEvents df u)]
    exact List.perm_insertionSort tsLE (userEvents df u)
  · intro p hp q hq hpq
    rw [sessionizeUser_snd_eq timeout ht0 (userEvents df u) p hp,
      sessionizeUser_snd_eq timeout ht0 (userEvents df u) q hq, hpq]
  · intro p hp q hq r hr hpq hpr hrq
    have e1 := sessionizeUser_snd_eq timeout ht0 (userEvents df u) p hp
    have e2 := sessionizeUser_snd_eq timeout ht0 (userEvents df u) q hq
    have e3 := sessionizeUser_snd_eq timeout ht0 (userEvents df u) r hr
    have m1 := sessionizeUser_fst_mem timeout ht0 (userEvents df u) p hp
    have m2 := sessionizeUser_fst_mem timeout ht0 (userEvents df u) q hq
    have m3 := sessionizeUser_fst_mem timeout ht0 (userEvents df u) r hr
    have hmono1 := groupAtAux_mono timeout (sortedTs (userEvents df u)) none 0
      p.1.event_timestamp r.1.event_timestamp (sortedTs_sorted _) m1 m3 hpr
    have hmono2 := groupAtAux_mono timeout (sortedTs (userEvents df u)) none 0
      r.1.event_timestamp q.1.event_timestamp (sortedTs_sorted _) m3 m2 hrq
    unfold groupAt at e1 e2 e3
    omega

/-- Witness for C7 at a concrete two-event table. -/
theorem C7_witness :
    ((sessionizeEventsUser 1800
        [{ user_id := 1, event_timestamp := 0, event_type := "view",
           product_id := none },
         { user_id := 1, event_timestamp := 30, event_type := "cart",
           product_id := none }] 1).map Prod.fst).Perm
      (userEvents
        [{ user_id := 1, event_timestamp := 0, event_type := "view",
           product_id := none },
         { user_id := 1, event_timestamp := 30, event_type := "cart",
           product_id := none }] 1) ∧
    (({ user_id := 1, event_timestamp := 30, event_type := "cart",
        product_id := none } : Event), (1 : Nat)).2 =
      (({ user_id := 1, event_timestamp := 0, event_type := "view",
          product_id := none } : Event), (1 : Nat)).2 :=
  ⟨(C7_partition 1800
      [{ user_id := 1, event_timestamp := 0, event_type := "view",
         product_id := none },
       { user_id := 1, event_timestamp := 30, event_type := "cart",
         product_id := none }] 1 (by decide)).1,
   (C7_partition 1800
      [{ user_id := 1, event_timestamp := 0, event_type := "view",
         product_id := none },
       { user_id := 1, event_timestamp := 30, event_type := "cart",
         product_id := none }] 1 (by decide)).2.2
     ({ user_id := 1, event_timestamp := 0, event_type := "view",
        product_id := none }, 1) (by decide)
     ({ user_id := 1, event_timestamp := 30, event_type := "cart",
        product_id := none }, 1) (by decide)
     ({ user_id := 1, event_timestamp := 30, event_type := "cart",
        product_id := none }, 1) (by decide)
     (by decide) (by decide) (by decide)⟩

/-! ### Claim C9 -/

/-- Claim C9: events of one user with identical timestamps have zero gap and
receive the same session number (first conjunct); and the session assignment
is invariant under reordering of the input rows — in particular under
reordering of exact-timestamp ties: for any permutation of the input table
the per-user sessionized output is the same multiset of
(event, session number) pairs (second conjunct). -/
theorem C9_tie_break (timeout : Int) (df1 df2 : List Event) (u : Int)
    (ht : 0 < timeout) (hperm : df1.Perm df2) :
    (∀ p ∈ sessionizeEventsUser timeout df1 u,
      ∀ q ∈ sessionizeEventsUser timeout df1 u,
      p.1.event_timestamp = q.1.event_timestamp → p.2 = q.2) ∧
    (sessionizeEventsUser timeout df1 u).Perm
      (sessionizeEventsUser timeout df2 u) := by
  have ht0 : (0 : Int) ≤ timeout := le_of_lt ht
  unfold sessionizeEventsUser
  constructor
  · intro p hp q hq hts
    rw [sessionizeUser_snd_eq timeout ht0 (userEvents df1 u) p hp,
      sessionizeUser_snd_eq timeout ht0 (userEvents df1 u) q hq, hts]
  · have hl : (userEvents df1 u).Perm (userEvents df2 u) := by
      unfold userEvents
      exact hperm.filter (fun e => e.user_id == u)
    have hs : (sortEventsByTs (userEvents df1 u)).Perm
        (sortEventsByTs (userEvents df2 u)) :=
      ((List.perm_insertionSort tsLE _).trans hl).trans
        (List.perm_insertionSort tsLE _).symm
    have hts : sortedTs (userEvents df1 u) = sortedTs (userEvents df2 u) := by
      unfold sortedTs
      exact List.eq_of_perm_of_sorted (hs.map (fun e => e.event_timestamp))
        (sortedTs_sorted _) (sortedTs_sorted _)
    rw [sessionizeUser_eq_map timeout ht0 (userEvents df1 u),
      sessionizeUser_eq_map timeout ht0 (userEvents df2 u), hts]
    exact hs.map _

/-- Witness for C9: two events with the identical timestamp, in both input
orders, share their session number and yield permuted outputs. -/
theorem C9_witness :
    ((({ user_id := 1, event_timestamp := 50, event_type := "view",
         product_id := none } : Event), (1 : Nat)).2 =
      (({ user_id := 1, event_timestamp := 50, event_type := "cart",
          product_id := none } : Event), (1 : Nat)).2) ∧
    (sessionizeEventsUser 1800
        [{ user_id := 1, event_timestamp := 50, event_type := "view",
           product_id := none },
         { user_id := 1, event_timestamp := 50, event_type := "cart",
           product_id := none }] 1).Perm
      (sessionizeEventsUser 1800
        [{ user_id := 1, event_timestamp := 50, event_type := "cart",
           product_id := none },
         { user_id := 1, event_timestamp := 50, event_type := "view",
           product_id := none }] 1) :=
  ⟨(C9_tie_break 1800
      [{ user_id := 1, event_timestamp := 50, event_type := "view",
         product_id := none },
       { user_id := 1, event_timestamp := 50, event_type := "cart",
         product_id := none }]
      [{ user_id := 1, event_timestamp := 50, event_type := "cart",
         product_id := none },
       { user_id := 1, event_timestamp := 50, event_type := "view",
         product_id := none }] 1 (by decide)
      (List.Perm.swap _ _ _)).1
     ({ user_id := 1, event_timestamp := 50, event_type := "view",
        product_id := none }, 1) (by decide)
     ({ user_id := 1, event_timestamp := 50, event_type := "cart",
        product_id := none }, 1) (by decide) rfl,
   (C9_tie_break 1800
      [{ user_id := 1, event_timestamp := 50, event_type := "view",
         product_id := none },
       { user_id := 1, event_timestamp := 50, event_type := "cart",
         product_id := none }]
      [{ user_id := 1, event_timestamp := 50, event_type := "cart",
         product_id := none },
       { user_id := 1, event_timestamp := 50, event_type := "view",
         product_id := none }] 1 (by decide)
      (List.Perm.swap _ _ _)).2⟩

theorem zip_lag_map_total_events (l : List SessionRow) :
    (l.zip (lagList none (l.map (fun r => r.session_start_time)))).map
        (fun p => p.1.total_events) =
      l.map (fun r => r.total_events) :=
  zip_map_fst (fun r => r.total_events) l _
    (by rw [length_lagList, List.length_map])

theorem aggregate_total_sessions (u : Int) (rows : List SessionRow) :
    (aggregateToUserFeatures u rows).total_sessions = rows.length := by
  unfold aggregateToUserFeatures
  dsimp only
  rw [List.length_zip, length_lagList, List.length_map, Nat.min_self]
  exact (List.perm_insertionSort rowLE rows).length_eq

theorem aggregate_total_events (u : Int) (rows : List SessionRow) :
    (aggregateToUserFeatures u rows).total_events_lifetime =
      (rows.map (fun r => r.total_events)).sum := by
  unfold aggregateToUserFeatures
  dsimp only
  rw [zip_lag_map_total_events]
  exact ((List.perm_insertionSort rowLE rows).map
    (fun r => r.total_events)).sum_eq

theorem sessionFeatures_map_group (timeout : Int) (df : List Event) (u : Int) :
    (aggregateToSessionFeatures timeout df u).map (fun r => r.session_group) =
      ((sessionizeEventsUser timeout df u).map Prod.snd).dedup := by
  unfold aggregateToSessionFeatures sessionEventLists
  rw [List.map_map, List.map_map]
  have hid : ∀ g ∈ ((sessionizeEventsUser timeout df u).map Prod.snd).dedup,
      (((fun r : SessionRow => r.session_group) ∘
          (fun gp : Nat × List Event => mkSessionRow u gp.1 gp.2)) ∘
        (fun g => (g, ((sessionizeEventsUser timeout df u).filter
          (fun p => p.2 == g)).map Prod.fst))) g = id g :=
    fun g _ => rfl
  rw [List.map_congr_left hid, List.map_id]

theorem sessionFeatures_map_events (timeout : Int) (df : List Event) (u : Int) :
    (aggregateToSessionFeatures timeout df u).map (fun r => r.total_events) =
      (sessionEventLists (sessionizeEventsUser timeout df u)).map
        (fun gp => gp.2.length) := by
  unfold aggregateToSessionFeatures
  rw [List.map_map]
  exact List.map_congr_left (fun gp _ => rfl)

/-! ### Claim C8 -/

/-- Claim C8: for every user with at least one event, the `UserSummary` row
satisfies: `total_events_lifetime` equals the sum of `total_events` over
that user's SessionFeatures rows, and `total_sessions` equals the number of
distinct session numbers among those rows (one row per distinct session of
the `groupBy`; within one user, distinct session numbers give distinct
`session_id` strings `user_group`); consequently `total_sessions ≥ 1` and
`total_events_lifetime ≥ total_sessions`. -/
theorem C8_aggregation_consistency (timeout : Int) (df : List Event) (u : Int)
    (hne : userEvents df u ≠ []) :
    (userSummaryOf timeout df u).total_events_lifetime =
      ((aggregateToSessionFeatures timeout df u).map
        (fun r => r.total_events)).sum ∧
    (userSummaryOf timeout df u).total_sessions =
      (((aggregateToSessionFeatures timeout df u).map
        (fun r => r.session_group)).dedup).length ∧
    1 ≤ (userSummaryOf timeout df u).total_sessions ∧
    (userSummaryOf timeout df u).total_sessions ≤
      (userSummaryOf timeout df u).total_events_lifetime := by
  have hTE : (userSummaryOf timeout df u).total_events_lifetime =
      ((aggregateToSessionFeatures timeout df u).map
        (fun r => r.total_events)).sum :=
    aggregate_total_events u (aggregateToSessionFeatures timeout df u)
  have hTSrows : (userSummaryOf timeout df u).total_sessions =
      (aggregateToSessionFeatures timeout df u).length :=
    aggregate_total_sessions u (aggregateToSessionFeatures timeout df u)
  have hgroups := sessionFeatures_map_group timeout df u
  have hrowslen : (aggregateToSessionFeatures timeout df u).length =
      (((aggregateToSessionFeatures timeout df u).map
        (fun r => r.session_group)).dedup).length := by
    rw [hgroups, List.dedup_eq_self.mpr (List.nodup_dedup _)]
    unfold aggregateToSessionFeatures sessionEventLists
    rw [List.map_map, List.length_map]
  have hTS : (userSummaryOf timeout df u).total_sessions =
      (((aggregateToSessionFeatures timeout df u).map
        (fun r => r.session_group)).dedup).length :=
    hTSrows.trans hrowslen
  refine ⟨hTE, hTS, ?_, ?_⟩
  · rw [hTSrows]
    have hout : (sessionizeEventsUser timeout df u).length =
        (userEvents df u).length := by
      unfold sessionizeEventsUser
      rw [sessionizeUser_length]
      exact (List.perm_insertionSort tsLE (userEvents df u)).length_eq
    have houtne : (sessionizeEventsUser timeout df u) ≠ [] := by
      intro h
      apply hne
      have := hout
      rw [h] at this
      exact List.length_eq_zero.mp this.symm
    rcases List.exists_mem_of_ne_nil _ houtne with ⟨p, hp⟩
    have hkey : p.2 ∈ ((sessionizeEventsUser timeout df u).map Prod.snd).dedup :=
      List.mem_dedup.mpr (List.mem_map.mpr ⟨p, hp, rfl⟩)
    have hkeysne : ((sessionizeEventsUser timeout df u).map Prod.snd).dedup ≠ [] :=
      List.ne_nil_of_mem hkey
    unfold aggregateToSessionFeatures
    rw [List.length_map]
    unfold sessionEventLists
    rw [List.length_map]
    exact List.length_pos.mpr hkeysne
  · rw [hTSrows, hTE]
    have hone : ∀ x ∈ (aggregateToSessionFeatures timeout df u).map
        (fun r => r.total_events), 1 ≤ x := by
      intro x hx
      rw [sessionFeatures_map_events] at hx
      rcases List.mem_map.mp hx with ⟨gp, hgp, hEq⟩
      rw [← hEq]
      exact sessionEventLists_groups_nonempty _ gp hgp
    have hlen : ((aggregateToSessionFeatures timeout df u).map
        (fun r => r.total_events)).length =
        (aggregateToSessionFeatures timeout df u).length := List.length_map _ _
    calc (aggregateToSessionFeatures timeout df u).length
        = ((aggregateToSessionFeatures timeout df u).map
            (fun r => r.total_events)).length := hlen.symm
      _ ≤ ((aggregateToSessionFeatures timeout df u).map
            (fun r => r.total_events)).sum :=
          length_le_sum_of_one_le _ hone

/-- Witness for C8 at a concrete table: user 7 with three events in two
sessions (timeout 1800, gaps 30 s and 7170 s). -/
theorem C8_witness :
    userEvents
      [{ user_id := 7, event_timestamp := 0, event_type := "view",
         product_id := none },
       { user_id := 7, event_timestamp := 30, event_type := "cart",
         product_id := none },
       { user_id := 7, event_timestamp := 7200, event_type := "purchase",
         product_id := none }] 7 ≠ [] ∧
    (userSummaryOf 1800
      [{ user_id := 7, event_timestamp := 0, event_type := "view",
         product_id := none },
       { user_id := 7, event_timestamp := 30, event_type := "cart",
         product_id := none },
       { user_id := 7, event_timestamp := 7200, event_type := "purchase",
         product_id := none }] 7).total_events_lifetime =
      ((aggregateToSessionFeatures 1800
        [{ user_id := 7, event_timestamp := 0, event_type := "view",
           product_id := none },
         { user_id := 7, event_timestamp := 30, event_type := "cart",
           product_id := none },
         { user_id := 7, event_timestamp := 7200, event_type := "purchase",
           product_id := none }] 7).map (fun r => r.total_events)).sum :=
  ⟨by decide,
   (C8_aggregation_consistency 1800
     [{ user_id := 7, event_timestamp := 0, event_type := "view",
        product_id := none },
      { user_id := 7, event_timestamp := 30, event_type := "cart",
        product_id := none },
      { user_id := 7, event_timestamp := 7200, event_type := "purchase",
        product_id := none }] 7 (by decide)).1⟩
